import Mathlib

/-!
Verification of the movement-and-space core of the wowclone repository:
physics integrator, static-obstacle collision resolver, terrain height
oracle, and grid pathfinding service.  TypeScript sources are shallowly
embedded: numbers become rationals, mutable objects become explicit state
passing, and the Babylon scene is abstracted as a heightfield function.
Square-root comparisons in the source (Vector3.length / Vector3.Distance
compared against a bound) are embedded as the equivalent decidable
comparison of the squared distance against the squared bound.
-/

/-- A 3D vector with rational components, embedding Babylon's Vector3 as
used by the movement core. -/
structure Vec3 where
  x : ℚ
  y : ℚ
  z : ℚ
  deriving DecidableEq, Repr

/-- Squared 3D Euclidean distance; the source computes
Vector3.Distance (a square root) and only ever compares it to bounds. -/
def distSq (a b : Vec3) : ℚ :=
  (a.x - b.x) * (a.x - b.x) + (a.y - b.y) * (a.y - b.y) + (a.z - b.z) * (a.z - b.z)

/-- Decidable embedding of the comparison "sqrt dSq < c" for a
nonnegative squared distance dSq: it holds iff c is positive and
dSq < c * c.  Used wherever the source compares a vector length or
distance against a bound. -/
def sqrtLt (dSq c : ℚ) : Bool :=
  decide (0 < c) && decide (dSq < c * c)

theorem distSq_nonneg (a b : Vec3) : 0 ≤ distSq a b := by
  have hx := mul_self_nonneg (a.x - b.x)
  have hy := mul_self_nonneg (a.y - b.y)
  have hz := mul_self_nonneg (a.z - b.z)
  unfold distSq
  linarith

/-- sqrtLt agrees with the real square-root comparison it embeds. -/
theorem sqrtLt_iff_sqrt_lt (dSq c : ℚ) (h : 0 ≤ dSq) :
    sqrtLt dSq c = true ↔ Real.sqrt (dSq : ℝ) < (c : ℝ) := by
  unfold sqrtLt
  simp only [Bool.and_eq_true, decide_eq_true_eq]
  constructor
  · rintro ⟨hc, hlt⟩
    have hc' : (0 : ℝ) < (c : ℝ) := by exact_mod_cast hc
    have hlt' : (dSq : ℝ) < (c : ℝ) * (c : ℝ) := by exact_mod_cast hlt
    have := Real.sqrt_lt_sqrt (by exact_mod_cast h) hlt'
    calc Real.sqrt (dSq : ℝ) < Real.sqrt ((c : ℝ) * (c : ℝ)) := this
      _ = (c : ℝ) := by
          rw [Real.sqrt_mul_self (le_of_lt hc')]
  · intro hlt
    have hs : 0 ≤ Real.sqrt (dSq : ℝ) := Real.sqrt_nonneg _
    have hc' : (0 : ℝ) < (c : ℝ) := lt_of_le_of_lt hs hlt
    refine ⟨by exact_mod_cast hc', ?_⟩
    have h1 : Real.sqrt (dSq : ℝ) * Real.sqrt (dSq : ℝ) < (c : ℝ) * (c : ℝ) :=
      mul_lt_mul' (le_of_lt hlt) hlt hs hc'
    rw [Real.mul_self_sqrt (by exact_mod_cast h)] at h1
    exact_mod_cast h1

/-! ## GameConfig (src/src/config.ts) -/

namespace GameConfig

def MOVE_SPEED : ℚ := 1/10
def SPRINT_MULTIPLIER : ℚ := 2
def JUMP_FORCE : ℚ := 3/10
def GRAVITY : ℚ := -1/50
def PLAYER_GROUND_HEIGHT : ℚ := 1

end GameConfig

/-! ## PhysicsSystem and PlayerState
(src/src/controllers/PhysicsSystem.ts, src/src/types.ts)

PlayerState in the source holds a mesh reference (whose position is the
player position), a skeleton root, velocity, the grounded flag and a base
offset.  The mesh and skeleton references are render objects; only the
position of the mesh is movement state, embedded here directly. -/

structure PlayerState where
  position : Vec3
  velocity : Vec3
  isGrounded : Bool
  baseOffset : ℚ
  deriving DecidableEq, Repr

namespace PhysicsSystem

/-- PhysicsSystem.jump: refuse when airborne; otherwise set vertical
velocity to JUMP_FORCE, clear grounded, report success. -/
def jump (s : PlayerState) : Bool × PlayerState :=
  if !s.isGrounded then
    (false, s)
  else
    (true, { s with velocity := { s.velocity with y := GameConfig.JUMP_FORCE },
                    isGrounded := false })

end PhysicsSystem

/-! ## CollisionManager (src/unnamed/part_001, first class)

The manager's registry is the pair of a set of collidable meshes and a
map from mesh to authored cylinder data.  A mesh is embedded by the data
the manager reads from it: an identity, its world position at
registration, its (optional) bounding info, its resolved asset name, and
its enabled/visible flags at query time. -/

/-- Authored cylinder collision shape (collision-config.json entry). -/
structure CollisionConfig where
  radius : ℚ
  height : ℚ
  offsetY : ℚ
  enabled : Bool
  deriving DecidableEq, Repr

/-- A registered cylinder collider: world center, radius and the
vertical band it occupies. -/
structure CustomCollisionData where
  center : Vec3
  radius : ℚ
  minY : ℚ
  maxY : ℚ
  deriving DecidableEq, Repr

/-- Bounding info a mesh exposes: world-space box corners, the box half
extents (extendSize), and the world bounding sphere. -/
structure BoundingInfo where
  minimumWorld : Vec3
  maximumWorld : Vec3
  extendSize : Vec3
  sphereCenterWorld : Vec3
  sphereRadiusWorld : ℚ
  deriving DecidableEq, Repr

/-- The data the CollisionManager reads from a mesh. -/
structure MeshData where
  id : ℕ
  position : Vec3
  boundingInfo : Option BoundingInfo
  assetName : Option String
  isEnabled : Bool
  isVisible : Bool
  deriving DecidableEq, Repr

/-- One entry of the manager's registry during a collision query: the
mesh together with the custom cylinder data the customCollisions map
holds for it (none for auto bounding-box colliders). -/
structure RegistryEntry where
  mesh : MeshData
  customData : Option CustomCollisionData
  deriving DecidableEq, Repr

/-- The CollisionManager's registry state at query time, as the list of
registered collidable meshes (in insertion order) with their custom
collision data. -/
structure CollisionManagerState where
  entries : List RegistryEntry
  deriving DecidableEq, Repr

namespace CollisionManager

/-- checkCylinderCollision: standing-on-top exemption (within 0.1 of
maxY), then the vertical band check, then the horizontal
distance-squared test against the combined radius. -/
def checkCylinderCollision (playerPos : Vec3) (playerRadius : ℚ)
    (cylinderData : CustomCollisionData) : Bool :=
  if |playerPos.y - cylinderData.maxY| < 1/10 then
    false
  else if playerPos.y < cylinderData.minY ∨ playerPos.y > cylinderData.maxY then
    false
  else
    let dx := playerPos.x - cylinderData.center.x
    let dz := playerPos.z - cylinderData.center.z
    let horizontalDistSq := dx * dx + dz * dz
    let combinedRadius := playerRadius + cylinderData.radius
    decide (horizontalDistSq < combinedRadius * combinedRadius)

/-- isPointInsideOrNearMesh: point-in-box test with the world box
expanded by the buffer on every side. -/
def isPointInsideOrNearMesh (point : Vec3) (bi : BoundingInfo) (buffer : ℚ) : Bool :=
  decide (point.x ≥ bi.minimumWorld.x - buffer) && decide (point.x ≤ bi.maximumWorld.x + buffer) &&
  decide (point.z ≥ bi.minimumWorld.z - buffer) && decide (point.z ≤ bi.maximumWorld.z + buffer) &&
  decide (point.y ≥ bi.minimumWorld.y - buffer) && decide (point.y ≤ bi.maximumWorld.y + buffer)

/-- Broad phase for auto bounding-box colliders: the proposed position
must be within the combined radius of the mesh's world bounding sphere
(the source compares Vector3.Distance, a 3D distance, to the sum of the
radii). -/
def broadPhasePasses (toPos : Vec3) (playerRadius : ℚ) (bi : BoundingInfo) : Bool :=
  sqrtLt (distSq toPos bi.sphereCenterWorld) (playerRadius + bi.sphereRadiusWorld)

/-- The per-mesh test of the checkCollision loop: disabled or invisible
meshes are skipped; cylinder entries use checkCylinderCollision; the
rest use the bounding-sphere broad phase then the expanded-box narrow
phase (meshes without bounding info are skipped). -/
def meshBlocks (toPos : Vec3) (playerRadius : ℚ) (entry : RegistryEntry) : Bool :=
  if !entry.mesh.isEnabled || !entry.mesh.isVisible then
    false
  else
    match entry.customData with
    | some customData => checkCylinderCollision toPos playerRadius customData
    | none =>
      match entry.mesh.boundingInfo with
      | none => false
      | some bi =>
        broadPhasePasses toPos playerRadius bi &&
          isPointInsideOrNearMesh toPos bi playerRadius

/-- The checkCollision loop over registered meshes: the first mesh that
blocks yields the full stop (from's X/Z, to's Y) and the loop exits. -/
def checkCollisionLoop (fromPos toPos : Vec3) (playerRadius : ℚ) :
    List RegistryEntry → Vec3
  | [] => toPos
  | entry :: rest =>
    if meshBlocks toPos playerRadius entry then
      { x := fromPos.x, y := toPos.y, z := fromPos.z }
    else
      checkCollisionLoop fromPos toPos playerRadius rest

/-- checkCollision: empty registry and sub-0.001 moves return the target
unchanged before any per-mesh test; otherwise the loop runs.  The source
compares movement.length() (a square root) with 0.001; sqrtLt embeds
that comparison on the squared distance. -/
def checkCollision (st : CollisionManagerState) (fromPos toPos : Vec3)
    (playerRadius : ℚ) : Vec3 :=
  if st.entries.isEmpty then
    toPos
  else if sqrtLt (distSq fromPos toPos) (1/1000) then
    toPos
  else
    checkCollisionLoop fromPos toPos playerRadius st.entries

/-- Registry mutated by registration: the mesh set and the custom map,
by mesh identity.  Set.add is a no-op on a present element; Map.set
replaces the value of a present key. -/
structure RegState where
  collidableMeshes : List ℕ
  customCollisions : List (ℕ × CustomCollisionData)
  deriving DecidableEq, Repr

/-- Set.add on the collidable-mesh set. -/
def addMesh (id : ℕ) (l : List ℕ) : List ℕ :=
  if id ∈ l then l else l ++ [id]

/-- Map.set on the custom-collision map. -/
def setCustom (id : ℕ) (d : CustomCollisionData) :
    List (ℕ × CustomCollisionData) → List (ℕ × CustomCollisionData)
  | [] => [(id, d)]
  | (k, v) :: rest => if k = id then (id, d) :: rest else (k, v) :: setCustom id d rest

/-- registerCollidable (first CollisionManager): meshes without bounding
info are skipped; a mesh whose resolved asset name has a config entry
takes the cylinder path (skipped when the entry is disabled); otherwise
the auto bounding-box path rejects degenerate or implausibly large
volumes (extendSize component product outside 0.001 to 10000) and adds
the mesh to the set.  The config table is the collision-config.json
lookup; the side effect mesh.checkCollisions := true touches only the
external mesh, not the registry. -/
def registerCollidable (config : String → Option CollisionConfig)
    (mesh : MeshData) (st : RegState) : RegState :=
  match mesh.boundingInfo with
  | none => st
  | some bi =>
    match mesh.assetName.bind config with
    | some cfg =>
      if !cfg.enabled then
        st
      else
        let customData : CustomCollisionData :=
          { center := { x := mesh.position.x
                        y := mesh.position.y + cfg.height / 2 + cfg.offsetY
                        z := mesh.position.z }
            radius := cfg.radius
            minY := mesh.position.y + cfg.offsetY
            maxY := mesh.position.y + cfg.offsetY + cfg.height }
        { collidableMeshes := addMesh mesh.id st.collidableMeshes
          customCollisions := setCustom mesh.id customData st.customCollisions }
    | none =>
      let volume := bi.extendSize.x * bi.extendSize.y * bi.extendSize.z
      if volume < 1/1000 ∨ volume > 10000 then
        st
      else
        { st with collidableMeshes := addMesh mesh.id st.collidableMeshes }

/-- registerCollidable (second CollisionManager, auto box only): same
bounding-info guard and volume rejection, then add to the set. -/
def registerCollidableV2 (mesh : MeshData) (collidableMeshes : List ℕ) : List ℕ :=
  match mesh.boundingInfo with
  | none => collidableMeshes
  | some bi =>
    let volume := bi.extendSize.x * bi.extendSize.y * bi.extendSize.z
    if volume < 1/1000 ∨ volume > 10000 then
      collidableMeshes
    else
      addMesh mesh.id collidableMeshes

end CollisionManager

/-! ## TerrainService (src/unnamed/part_002)

The Babylon scene is abstracted as a heightfield: the downward ray probe
against the mesh named ground, deterministic while the world does not
change, is a function from (x, z) to an optional ground height.  The
wall-clock Date.now() becomes an explicit now argument.  The cache is
the Map from the grid-snapped key to (height, timestamp); the source key
is the string of floor(x / 0.5) * 0.5 and floor(z / 0.5) * 0.5 each
printed with one decimal, which is in bijection with the pair of floors
used here.  Each query also reports whether it performed a ray probe. -/

/-- The scene's ground surface as a heightfield probe. -/
def Heightfield : Type := ℚ → ℚ → Option ℚ

/-- The height cache: association list from snapped key to
(height, timestamp), first match wins on lookup. -/
def HeightCache : Type := List ((ℤ × ℤ) × (ℚ × ℚ))

namespace TerrainService

def CACHE_DURATION : ℚ := 500

def GRID_SIZE : ℚ := 1/2

/-- getCacheKey: snap the position to the caching grid. -/
def getCacheKey (x z : ℚ) : ℤ × ℤ :=
  (⌊x / GRID_SIZE⌋, ⌊z / GRID_SIZE⌋)

/-- Map.get on the height cache. -/
def cacheGet (key : ℤ × ℤ) : HeightCache → Option (ℚ × ℚ)
  | [] => none
  | (k, v) :: rest => if k = key then some v else cacheGet key rest

/-- Map.set on the height cache: replace a present key, else append. -/
def cacheSet (key : ℤ × ℤ) (v : ℚ × ℚ) : HeightCache → HeightCache
  | [] => [(key, v)]
  | (k, w) :: rest => if k = key then (key, v) :: rest else (k, w) :: cacheSet key v rest

/-- getGroundHeight: serve a sufficiently recent cached entry when
useCache is set; otherwise probe the heightfield, caching a hit.
Returns the result, the new cache, and whether a ray probe happened. -/
def getGroundHeight (scene : Heightfield) (x z : ℚ) (useCache : Bool)
    (now : ℚ) (cache : HeightCache) : Option ℚ × HeightCache × Bool :=
  let cacheKey := getCacheKey x z
  let cachedHit : Option ℚ :=
    if useCache then
      match cacheGet cacheKey cache with
      | some (h, ts) => if now - ts < CACHE_DURATION then some h else none
      | none => none
    else none
  match cachedHit with
  | some h => (some h, cache, false)
  | none =>
    match scene x z with
    | some height => (some height, cacheSet cacheKey (height, now) cache, true)
    | none => (none, cache, true)

/-- getSpawnPosition: query the ground height with the cache disabled
and offset the hit by the model's lowest point. -/
def getSpawnPosition (scene : Heightfield) (x z modelLowestPoint : ℚ)
    (now : ℚ) (cache : HeightCache) : Option Vec3 × HeightCache :=
  match getGroundHeight scene x z false now cache with
  | (some groundHeight, cache2, _) =>
    (some { x := x, y := groundHeight - modelLowestPoint, z := z }, cache2)
  | (none, cache2, _) => (none, cache2)

end TerrainService

/-! ## Pathfinder (WASM) and PathfindingService (src/unnamed/part_003)

Modelled from the spec: the Pathfinder occupancy grid lives in the Rust
crate compiled to game_physics_bg.wasm, whose source is not in the
tree; only the JS binding declarations (src/src/wasm/game_physics.js)
are.  Per the spec the grid is a square boolean occupancy grid over a
world of side worldSize centered on the origin, the cell index mapping
is a pure function of world coordinates, out-of-grid positions are not
walkable, a fresh grid has no blocked cell, setBlockedCircle marks the
cells whose centers fall within the radius of the world point, and
isWalkable is the inverse of the blocked flag at the mapped cell. -/

/-- Modelled from the spec: the WASM Pathfinder's occupancy-grid state
(grid shape plus the blocked flag of each cell). -/
structure PathfinderState where
  gridSize : ℕ
  cellSize : ℚ
  worldSize : ℚ
  blocked : ℤ × ℤ → Bool

namespace Pathfinder

/-- Modelled from the spec: world position to cell index, a pure
function of world coordinates on the origin-centered square grid. -/
def cellOf (ps : PathfinderState) (x z : ℚ) : ℤ × ℤ :=
  (⌊(x + ps.worldSize / 2) / ps.cellSize⌋, ⌊(z + ps.worldSize / 2) / ps.cellSize⌋)

/-- Modelled from the spec: a cell index lies on the grid. -/
def inGrid (ps : PathfinderState) (c : ℤ × ℤ) : Bool :=
  decide (0 ≤ c.1) && decide (c.1 < ps.gridSize) &&
  decide (0 ≤ c.2) && decide (c.2 < ps.gridSize)

/-- Modelled from the spec: a fresh Pathfinder has no blocked cell. -/
def new (gridSize : ℕ) (cellSize worldSize : ℚ) : PathfinderState :=
  { gridSize := gridSize, cellSize := cellSize, worldSize := worldSize,
    blocked := fun _ => false }

/-- Modelled from the spec: world center of a cell. -/
def cellCenter (ps : PathfinderState) (c : ℤ × ℤ) : ℚ × ℚ :=
  ((c.1 : ℚ) * ps.cellSize - ps.worldSize / 2 + ps.cellSize / 2,
   (c.2 : ℚ) * ps.cellSize - ps.worldSize / 2 + ps.cellSize / 2)

/-- Modelled from the spec: mark the cell of one world position. -/
def setBlocked (ps : PathfinderState) (x z : ℚ) : PathfinderState :=
  { ps with blocked := fun c => if c = cellOf ps x z then true else ps.blocked c }

/-- Modelled from the spec: mark every cell whose center falls within
the radius of the world point. -/
def setBlockedCircle (ps : PathfinderState) (x z radius : ℚ) : PathfinderState :=
  { ps with blocked := fun c =>
      let (cx, cz) := cellCenter ps c
      if (cx - x) * (cx - x) + (cz - z) * (cz - z) ≤ radius * radius then true
      else ps.blocked c }

/-- Modelled from the spec: walkable iff the mapped cell is on the grid
and not blocked. -/
def isWalkable (ps : PathfinderState) (x z : ℚ) : Bool :=
  let c := cellOf ps x z
  inGrid ps c && !ps.blocked c

end Pathfinder

/-- PathfindingService state: the wrapped Pathfinder, the grid
parameters, and the initialization flag. -/
structure PathfindingServiceState where
  pathfinder : PathfinderState
  worldSize : ℚ
  cellSize : ℚ
  gridSize : ℕ
  isInitialized : Bool

namespace PathfindingService

/-- The PathfindingService constructor: gridSize is the ceiling of
worldSize / cellSize and the WASM Pathfinder starts fresh. -/
def new (worldSize cellSize : ℚ) : PathfindingServiceState :=
  let gridSize : ℕ := (⌈worldSize / cellSize⌉).toNat
  { pathfinder := Pathfinder.new gridSize cellSize worldSize
    worldSize := worldSize
    cellSize := cellSize
    gridSize := gridSize
    isInitialized := false }

/-- What a collider element of the read property would carry if it
existed: a position and an optional radius (collider.radius is read with
a default of 1). -/
structure ColliderInfo where
  position : Vec3
  radius : Option ℚ

/-- The untyped property read in buildNavigationGrid: the expression
(collisionManager as any).colliders.  The CollisionManager class
declares only the fields collidableMeshes, customCollisions,
playerRadius, debugMode, debugMeshes and scene, so this read yields
undefined (none) on every instance of either CollisionManager class in
the repository. -/
def collidersProperty (_cm : CollisionManagerState) : Option (List ColliderInfo) :=
  none

/-- The boundary-fencing double loop of buildNavigationGrid: x and z
step from -worldSize/2 to worldSize/2 in cellSize steps and every
position within one cellSize of the rim is marked blocked.  The loops
are embedded by the step count floor(worldSize / cellSize) inclusive of
both ends (for a nonpositive cellSize the JS loop would not terminate;
this path is unreachable, see collidersProperty). -/
def markBoundary (svc : PathfindingServiceState) (ps : PathfinderState) : PathfinderState :=
  let halfWorld := svc.worldSize / 2
  let margin := svc.cellSize
  let steps := (⌊svc.worldSize / svc.cellSize⌋).toNat + 1
  (List.range steps).foldl (fun acc i =>
    (List.range steps).foldl (fun acc2 j =>
      let x := -halfWorld + (i : ℚ) * svc.cellSize
      let z := -halfWorld + (j : ℚ) * svc.cellSize
      if decide (|x| > halfWorld - margin) || decide (|z| > halfWorld - margin) then
        Pathfinder.setBlocked acc2 x z
      else acc2) acc) ps

/-- buildNavigationGrid: read the colliders property off the collision
manager; when it is undefined or empty, warn and return with the
initialized flag set; otherwise block a circle per collider and fence
the world boundary. -/
def buildNavigationGrid (cm : CollisionManagerState)
    (svc : PathfindingServiceState) : PathfindingServiceState :=
  match collidersProperty cm with
  | none => { svc with isInitialized := true }
  | some colliders =>
    if colliders.isEmpty then
      { svc with isInitialized := true }
    else
      let ps1 := colliders.foldl (fun acc c =>
        Pathfinder.setBlockedCircle acc c.position.x c.position.z (c.radius.getD 1)) svc.pathfinder
      let ps2 := markBoundary svc ps1
      { svc with pathfinder := ps2, isInitialized := true }

end PathfindingService

/-! ## Body Integrator (WASM PlayerPhysics)

Modelled from the spec: the dt-taking per-tick integrator is the Rust
PlayerPhysics.update compiled to game_physics_bg.wasm, whose source is
not in the tree; only the JS binding declaration
(src/src/wasm/game_physics.js) and its caller
(src/src/controllers/WasmPlayerController.ts) are.  Per the spec the
local movement intent is rotated into world space by the caller-supplied
horizontal camera forward/right vectors and scaled by the move speed
(times the sprint multiplier when sprinting); horizontal velocity is
derived fresh from input each tick; out-of-range axis input degrades to
zero motion; gravity is added to the vertical velocity every tick;
a jump while grounded sets the vertical velocity to the jump impulse and
clears grounded; dt scales the tick's displacement so behavior is
framerate-independent to first order.  The facingAngle and isMoving
outputs are read-only derived values not needed by the claims here. -/

/-- Modelled from the spec: per-agent body state with its fixed tuning. -/
structure BodyState where
  position : Vec3
  velocity : Vec3
  grounded : Bool
  moveSpeed : ℚ
  sprintMultiplier : ℚ
  jumpImpulse : ℚ
  gravityAccel : ℚ
  deriving DecidableEq, Repr

namespace BodyIntegrator

/-- Modelled from the spec: out-of-range axis intent degrades to zero
motion (the NaN case has no rational counterpart). -/
def sanitizeAxis (m : ℚ) : ℚ :=
  if m < -1 ∨ 1 < m then 0 else m

/-- Modelled from the spec: one integrator tick. -/
def update (moveX moveZ : ℚ) (camForward camRight : ℚ × ℚ)
    (sprinting jumpRequested : Bool) (dt : ℚ) (s : BodyState) : BodyState :=
  let mx := sanitizeAxis moveX
  let mz := sanitizeAxis moveZ
  let speed := s.moveSpeed * (if sprinting then s.sprintMultiplier else 1)
  let wx := (camForward.1 * mz + camRight.1 * mx) * speed
  let wz := (camForward.2 * mz + camRight.2 * mx) * speed
  let vyGravity := s.velocity.y + s.gravityAccel * dt
  let vy := if jumpRequested && s.grounded then s.jumpImpulse else vyGravity
  let grounded := if jumpRequested && s.grounded then false else s.grounded
  { s with
    velocity := { x := wx, y := vy, z := wz }
    position := { x := s.position.x + wx * dt
                  y := s.position.y + vy * dt
                  z := s.position.z + wz * dt }
    grounded := grounded }

/-- Squared horizontal displacement of one integrator tick. -/
def horizontalDispSq (moveX moveZ : ℚ) (camForward camRight : ℚ × ℚ)
    (sprinting jumpRequested : Bool) (dt : ℚ) (s : BodyState) : ℚ :=
  let s2 := update moveX moveZ camForward camRight sprinting jumpRequested dt s
  (s2.position.x - s.position.x) * (s2.position.x - s.position.x) +
    (s2.position.z - s.position.z) * (s2.position.z - s.position.z)

end BodyIntegrator

/-! ## Claims -/

/-- Claim C2: for every body state, a jump requested while grounded sets
the vertical velocity exactly to the configured jump impulse and clears
the grounded flag, returning success; a jump requested while not
grounded returns failure and leaves the whole state unchanged. -/
theorem C2_jump_contract (s : PlayerState) :
    (s.isGrounded = true →
      PhysicsSystem.jump s =
        (true, { s with velocity := { s.velocity with y := GameConfig.JUMP_FORCE },
                        isGrounded := false })) ∧
    (s.isGrounded = false → PhysicsSystem.jump s = (false, s)) := by
  constructor <;> intro h <;> simp [PhysicsSystem.jump, h]

/-- Witness for C2 at a grounded and at an airborne state. -/
theorem C2_jump_contract_witness :
    PhysicsSystem.jump { position := ⟨0, 0, 0⟩, velocity := ⟨0, 0, 0⟩,
                         isGrounded := true, baseOffset := 0 } =
      (true, { position := ⟨0, 0, 0⟩, velocity := ⟨0, 3/10, 0⟩,
               isGrounded := false, baseOffset := 0 }) ∧
    PhysicsSystem.jump { position := ⟨0, 0, 0⟩, velocity := ⟨0, -1/4, 0⟩,
                         isGrounded := false, baseOffset := 0 } =
      (false, { position := ⟨0, 0, 0⟩, velocity := ⟨0, -1/4, 0⟩,
                isGrounded := false, baseOffset := 0 }) :=
  ⟨(C2_jump_contract _).1 rfl, (C2_jump_contract _).2 rfl⟩

/-- Claim C5: the cylinder narrow-phase test reports a collision iff the
body's vertical position lies in the cylinder's vertical band but not
within the 0.1 standing-on-top tolerance of its top, and the squared
horizontal distance to the cylinder center is below the squared combined
radius. -/
theorem C5_cylinder_narrow_phase (p : Vec3) (r : ℚ) (c : CustomCollisionData) :
    CollisionManager.checkCylinderCollision p r c = true ↔
      (c.minY ≤ p.y ∧ p.y ≤ c.maxY ∧ ¬ |p.y - c.maxY| < 1/10 ∧
        (p.x - c.center.x) * (p.x - c.center.x) +
            (p.z - c.center.z) * (p.z - c.center.z)
          < (r + c.radius) * (r + c.radius)) := by
  unfold CollisionManager.checkCylinderCollision
  by_cases h1 : |p.y - c.maxY| < 1/10
  · rw [if_pos h1]
    refine iff_of_false (by simp) ?_
    rintro ⟨-, -, hno, -⟩
    exact hno h1
  · rw [if_neg h1]
    by_cases h2 : p.y < c.minY ∨ p.y > c.maxY
    · rw [if_pos h2]
      refine iff_of_false (by simp) ?_
      rintro ⟨hmin, hmax, -, -⟩
      rcases h2 with h | h
      · exact absurd h (not_lt.mpr hmin)
      · exact absurd h (not_lt.mpr hmax)
    · rw [if_neg h2]
      push_neg at h2
      simp only [decide_eq_true_eq]
      exact ⟨fun h => ⟨h2.1, h2.2, h1, h⟩, fun h => h.2.2.2⟩

/-- Claim C7: registering a mesh whose auto-derived bounding-box volume
is outside 0.001 to 10000 through the auto-box branch is a no-op in both
CollisionManager versions: the registry is unchanged and no entry is
created. -/
theorem C7_degenerate_volume_noop (config : String → Option CollisionConfig)
    (mesh : MeshData) (st : CollisionManager.RegState) (l : List ℕ)
    (bi : BoundingInfo)
    (hbi : mesh.boundingInfo = some bi)
    (hauto : mesh.assetName.bind config = none)
    (hvol : bi.extendSize.x * bi.extendSize.y * bi.extendSize.z < 1/1000 ∨
            bi.extendSize.x * bi.extendSize.y * bi.extendSize.z > 10000) :
    CollisionManager.registerCollidable config mesh st = st ∧
    CollisionManager.registerCollidableV2 mesh l = l := by
  have hvol' : bi.extendSize.x * bi.extendSize.y * bi.extendSize.z < 1/1000 ∨
      bi.extendSize.x * bi.extendSize.y * bi.extendSize.z > 10000 := hvol
  constructor
  · unfold CollisionManager.registerCollidable
    rw [hbi]
    simp only [hauto]
    rw [if_pos hvol']
  · unfold CollisionManager.registerCollidableV2
    rw [hbi]
    simp only []
    rw [if_pos hvol']

/-- Witness for C7: a zero-extent mesh is not registered. -/
theorem C7_degenerate_volume_noop_witness :
    CollisionManager.registerCollidable (fun _ => none)
        { id := 7, position := ⟨0, 0, 0⟩,
          boundingInfo := some { minimumWorld := ⟨0, 0, 0⟩, maximumWorld := ⟨0, 0, 0⟩,
                                 extendSize := ⟨0, 0, 0⟩,
                                 sphereCenterWorld := ⟨0, 0, 0⟩, sphereRadiusWorld := 0 },
          assetName := none, isEnabled := true, isVisible := true }
        { collidableMeshes := [], customCollisions := [] } =
      { collidableMeshes := [], customCollisions := [] } ∧
    CollisionManager.registerCollidableV2
        { id := 7, position := ⟨0, 0, 0⟩,
          boundingInfo := some { minimumWorld := ⟨0, 0, 0⟩, maximumWorld := ⟨0, 0, 0⟩,
                                 extendSize := ⟨0, 0, 0⟩,
                                 sphereCenterWorld := ⟨0, 0, 0⟩, sphereRadiusWorld := 0 },
          assetName := none, isEnabled := true, isVisible := true } [] = [] :=
  C7_degenerate_volume_noop (fun _ => none) _ _ [] _ rfl rfl (Or.inl (by norm_num))

/-- Claim C10: with an empty collider registry, or for a proposed move
shorter than 0.001 (squared distance below 1/1000000), checkCollision
returns the target position unchanged; both early returns happen before
any per-mesh collision test, so an overlapping body proposing a tiny
move is never stopped. -/
theorem C10_early_exits (st : CollisionManagerState) (fromPos toPos : Vec3) (r : ℚ) :
    (st.entries = [] → CollisionManager.checkCollision st fromPos toPos r = toPos) ∧
    (distSq fromPos toPos < 1/1000000 →
      CollisionManager.checkCollision st fromPos toPos r = toPos) := by
  constructor
  · intro h
    simp [CollisionManager.checkCollision, h]
  · intro h
    unfold CollisionManager.checkCollision
    have hlt : sqrtLt (distSq fromPos toPos) (1/1000) = true := by
      unfold sqrtLt
      simp only [Bool.and_eq_true, decide_eq_true_eq]
      constructor
      · norm_num
      · calc distSq fromPos toPos < 1/1000000 := h
          _ = (1/1000) * (1/1000) := by norm_num
    by_cases he : st.entries.isEmpty = true
    · rw [if_pos he]
    · rw [if_neg he, if_pos hlt]

/-- Witness for C10: a body overlapping a registered cylinder obstacle
that proposes a sub-0.001 move is returned the target unchanged. -/
theorem C10_early_exits_witness :
    CollisionManager.checkCollision
        { entries := [{ mesh := { id := 0, position := ⟨0, 0, 0⟩, boundingInfo := none,
                                  assetName := some "rock_a.gltf",
                                  isEnabled := true, isVisible := true },
                        customData := some { center := ⟨0, 0, 0⟩, radius := 1,
                                             minY := -1, maxY := 1 } }] }
        ⟨0, 0, 0⟩ ⟨1/2000, 0, 0⟩ (1/2) = ⟨1/2000, 0, 0⟩ :=
  (C10_early_exits _ _ _ _).2 (by norm_num [distSq])

/-- Horizontal (XZ-plane) squared distance between two points; the
quantity claim C6 measures the broad phase against. -/
def horizDistSq (a b : Vec3) : ℚ :=
  (a.x - b.x) * (a.x - b.x) + (a.z - b.z) * (a.z - b.z)

/-- Claim C4 as stated is false: a move whose length is below the 0.001
early-exit guard is returned unchanged even though the target overlaps a
registered, enabled, visible cylinder collider, so the result's X is
to.x, not from.x. -/
theorem C4_counterexample :
    CollisionManager.meshBlocks ⟨1/2000, 0, 0⟩ (1/2)
        { mesh := { id := 1, position := ⟨0, 0, 0⟩, boundingInfo := none,
                    assetName := some "rock_b.gltf", isEnabled := true, isVisible := true },
          customData := some { center := ⟨0, 0, 0⟩, radius := 1, minY := -1, maxY := 1 } }
        = true ∧
    CollisionManager.checkCollision
        { entries := [{ mesh := { id := 1, position := ⟨0, 0, 0⟩, boundingInfo := none,
                                  assetName := some "rock_b.gltf",
                                  isEnabled := true, isVisible := true },
                        customData := some { center := ⟨0, 0, 0⟩, radius := 1,
                                             minY := -1, maxY := 1 } }] }
        ⟨0, 0, 0⟩ ⟨1/2000, 0, 0⟩ (1/2) = ⟨1/2000, 0, 0⟩ ∧
    (1/2000 : ℚ) ≠ 0 := by
  refine ⟨?_, ?_, by norm_num⟩
  · norm_num [CollisionManager.meshBlocks, CollisionManager.checkCylinderCollision]
  · unfold CollisionManager.checkCollision
    have hlt : sqrtLt (distSq ⟨0, 0, 0⟩ ⟨1/2000, 0, 0⟩) (1/1000) = true := by
      norm_num [sqrtLt, distSq]
    rw [if_neg (by norm_num), if_pos hlt]

/-- The checkCollision loop stops at the first blocking entry, yielding
from's X/Z with to's Y. -/
theorem checkCollisionLoop_stops (fromPos toPos : Vec3) (r : ℚ) :
    ∀ l : List RegistryEntry, (∃ e ∈ l, CollisionManager.meshBlocks toPos r e = true) →
      CollisionManager.checkCollisionLoop fromPos toPos r l =
        { x := fromPos.x, y := toPos.y, z := fromPos.z }
  | [], h => absurd h (by simp)
  | e :: rest, h => by
    unfold CollisionManager.checkCollisionLoop
    by_cases he : CollisionManager.meshBlocks toPos r e = true
    · rw [if_pos he]
    · rw [if_neg he]
      refine checkCollisionLoop_stops fromPos toPos r rest ?_
      rcases h with ⟨e2, hmem, hb⟩
      rcases List.mem_cons.mp hmem with rfl | hmem2
      · exact absurd hb he
      · exact ⟨e2, hmem2, hb⟩

/-- Claim C4 amended: for every move of squared length at least the
guard value 1/1000000 whose target blocks against some registered entry
(the resolver's own per-mesh test, which requires the mesh enabled and
visible), the simple-mode resolver returns from's X and Z with to's
Y. -/
theorem C4_blocked_move_full_stop (st : CollisionManagerState)
    (fromPos toPos : Vec3) (r : ℚ)
    (hdist : ¬ distSq fromPos toPos < 1/1000000)
    (hcol : ∃ e ∈ st.entries, CollisionManager.meshBlocks toPos r e = true) :
    CollisionManager.checkCollision st fromPos toPos r =
      { x := fromPos.x, y := toPos.y, z := fromPos.z } := by
  unfold CollisionManager.checkCollision
  have hne : st.entries.isEmpty ≠ true := by
    rcases hcol with ⟨e, hmem, -⟩
    intro hemp
    rw [List.isEmpty_iff] at hemp
    rw [hemp] at hmem
    simp at hmem
  rw [if_neg hne]
  have hlt : sqrtLt (distSq fromPos toPos) (1/1000) ≠ true := by
    unfold sqrtLt
    simp only [ne_eq, Bool.and_eq_true, decide_eq_true_eq, not_and]
    intro _ hc
    exact hdist (by linarith [show (1/1000 : ℚ) * (1/1000) = 1/1000000 by norm_num])
  rw [if_neg hlt]
  exact checkCollisionLoop_stops fromPos toPos r st.entries hcol

/-- Witness for the amended C4: walking one unit into a registered
cylinder obstacle stops at from's horizontal position. -/
theorem C4_blocked_move_full_stop_witness :
    CollisionManager.checkCollision
        { entries := [{ mesh := { id := 1, position := ⟨0, 0, 0⟩, boundingInfo := none,
                                  assetName := some "rock_b.gltf",
                                  isEnabled := true, isVisible := true },
                        customData := some { center := ⟨0, 0, 0⟩, radius := 1,
                                             minY := -1, maxY := 1 } }] }
        ⟨2, 1/2, 0⟩ ⟨1, 1/2, 0⟩ (1/2) = ⟨2, 1/2, 0⟩ :=
  C4_blocked_move_full_stop _ _ _ _ (by norm_num [distSq])
    ⟨{ mesh := { id := 1, position := ⟨0, 0, 0⟩, boundingInfo := none,
                 assetName := some "rock_b.gltf", isEnabled := true, isVisible := true },
       customData := some { center := ⟨0, 0, 0⟩, radius := 1, minY := -1, maxY := 1 } },
     by simp,
     by
      have habs : |(1 : ℚ)/2| = 1/2 := abs_of_nonneg (by norm_num)
      norm_num [CollisionManager.meshBlocks, CollisionManager.checkCylinderCollision, habs]⟩

/-- Claim C6 as stated is false: for a body directly above a box
collider's bounding-sphere center, the horizontal distance (zero) does
not exceed the combined radius, yet the broad phase rejects — the source
measures the full 3D distance, not the horizontal one. -/
theorem C6_counterexample :
    CollisionManager.broadPhasePasses ⟨0, 10, 0⟩ (1/2)
        { minimumWorld := ⟨-1, -1, -1⟩, maximumWorld := ⟨1, 1, 1⟩,
          extendSize := ⟨1, 1, 1⟩, sphereCenterWorld := ⟨0, 0, 0⟩,
          sphereRadiusWorld := 1 } = false ∧
    horizDistSq ⟨0, 10, 0⟩ ⟨0, 0, 0⟩ ≤ (1/2 + 1) * (1/2 + 1) :=
  ⟨by norm_num [CollisionManager.broadPhasePasses, sqrtLt, distSq],
   by norm_num [horizDistSq]⟩

/-- Claim C6 amended: the broad phase rejects a box collider exactly
when the full 3D Euclidean distance from the proposed position to the
collider's bounding-sphere center is at least (not strictly exceeds) the
sum of the body radius and the bounding-sphere radius. -/
theorem C6_broad_phase_reject (toPos : Vec3) (r : ℚ) (bi : BoundingInfo) :
    CollisionManager.broadPhasePasses toPos r bi = false ↔
      ((r + bi.sphereRadiusWorld : ℚ) : ℝ) ≤
        Real.sqrt ((distSq toPos bi.sphereCenterWorld : ℚ) : ℝ) := by
  have h := sqrtLt_iff_sqrt_lt (distSq toPos bi.sphereCenterWorld)
    (r + bi.sphereRadiusWorld) (distSq_nonneg _ _)
  unfold CollisionManager.broadPhasePasses
  rw [Bool.eq_false_iff, Ne, h, not_lt]

/-- Claim C1: for fixed movement input, camera basis and starting body
state, doubling the frame-time scale dt doubles the horizontal
displacement magnitude of one integrator tick (exactly, in the rational
model; the source's floating tolerance disappears). -/
theorem C1_dt_linearity (moveX moveZ : ℚ) (camForward camRight : ℚ × ℚ)
    (sprinting jumpRequested : Bool) (dt : ℚ) (s : BodyState) :
    Real.sqrt ((BodyIntegrator.horizontalDispSq moveX moveZ camForward camRight
        sprinting jumpRequested (2 * dt) s : ℚ) : ℝ) =
      2 * Real.sqrt ((BodyIntegrator.horizontalDispSq moveX moveZ camForward camRight
        sprinting jumpRequested dt s : ℚ) : ℝ) := by
  have key : BodyIntegrator.horizontalDispSq moveX moveZ camForward camRight
      sprinting jumpRequested (2 * dt) s =
        4 * BodyIntegrator.horizontalDispSq moveX moveZ camForward camRight
          sprinting jumpRequested dt s := by
    simp only [BodyIntegrator.horizontalDispSq, BodyIntegrator.update]
    ring
  rw [key]
  have hcast : ((4 * BodyIntegrator.horizontalDispSq moveX moveZ camForward camRight
      sprinting jumpRequested dt s : ℚ) : ℝ) =
        4 * ((BodyIntegrator.horizontalDispSq moveX moveZ camForward camRight
          sprinting jumpRequested dt s : ℚ) : ℝ) := by push_cast; ring
  rw [hcast, Real.sqrt_mul (by norm_num : (0 : ℝ) ≤ 4),
    show Real.sqrt 4 = 2 by
      rw [show (4 : ℝ) = 2 ^ 2 by norm_num, Real.sqrt_sq (by norm_num : (0 : ℝ) ≤ 2)]]

/-- Claim C9: getSpawnPosition never depends on the cache (same result
for any two cache states), and on a terrain hit returns the probed
ground height minus the model's lowest point as the Y coordinate. -/
theorem C9_spawn_bypasses_cache (scene : Heightfield) (x z m now : ℚ)
    (cache1 cache2 : HeightCache) :
    (TerrainService.getSpawnPosition scene x z m now cache1).1 =
      (TerrainService.getSpawnPosition scene x z m now cache2).1 ∧
    (∀ h, scene x z = some h →
      (TerrainService.getSpawnPosition scene x z m now cache1).1 =
        some { x := x, y := h - m, z := z }) := by
  constructor
  · unfold TerrainService.getSpawnPosition TerrainService.getGroundHeight
    rcases hs : scene x z with _ | h <;> simp [hs]
  · intro h hs
    unfold TerrainService.getSpawnPosition TerrainService.getGroundHeight
    simp [hs]

/-- Witness for C9 on a flat heightfield of height 3, with a stale and
with an empty cache. -/
theorem C9_spawn_bypasses_cache_witness :
    (TerrainService.getSpawnPosition (fun _ _ => some 3) 5 5 (-1/2) 1000
        [((10, 10), (7, 0))]).1 =
      (TerrainService.getSpawnPosition (fun _ _ => some 3) 5 5 (-1/2) 1000 []).1 ∧
    (TerrainService.getSpawnPosition (fun _ _ => some 3) 5 5 (-1/2) 1000
        [((10, 10), (7, 0))]).1 = some { x := 5, y := 3 - (-1/2), z := 5 } :=
  ⟨(C9_spawn_bypasses_cache (fun _ _ => some 3) 5 5 (-1/2) 1000
      [((10, 10), (7, 0))] []).1,
   (C9_spawn_bypasses_cache (fun _ _ => some 3) 5 5 (-1/2) 1000
      [((10, 10), (7, 0))] []).2 3 rfl⟩

/-- Looking up a key just written finds the written value. -/
theorem cacheGet_cacheSet (key : ℤ × ℤ) (v : ℚ × ℚ) :
    ∀ cache : HeightCache, TerrainService.cacheGet key (TerrainService.cacheSet key v cache) = some v
  | [] => by simp [TerrainService.cacheSet, TerrainService.cacheGet]
  | (k, w) :: rest => by
    unfold TerrainService.cacheSet
    by_cases hk : k = key
    · rw [if_pos hk]
      simp [TerrainService.cacheGet]
    · rw [if_neg hk]
      unfold TerrainService.cacheGet
      rw [if_neg hk]
      exact cacheGet_cacheSet key v rest

/-- Claim C8 as stated is false: when the downward probe misses (for
example outside world bounds) nothing is cached, so a second heightAt
call 100 ms after the first still performs a new ray probe, though both
calls do return the identical value none. -/
theorem C8_counterexample :
    (TerrainService.getGroundHeight (fun _ _ => none) 0 0 true 0 []).2.2 = true ∧
    (TerrainService.getGroundHeight (fun _ _ => none) 0 0 true 100
        (TerrainService.getGroundHeight (fun _ _ => none) 0 0 true 0 []).2.1).2.2 = true ∧
    (TerrainService.getGroundHeight (fun _ _ => none) 0 0 true 100
        (TerrainService.getGroundHeight (fun _ _ => none) 0 0 true 0 []).2.1).1 =
      (TerrainService.getGroundHeight (fun _ _ => none) 0 0 true 0 []).1 := by
  refine ⟨rfl, rfl, rfl⟩

/-- Claim C8 amended: when the first heightAt call performs a ray probe
and the probe hits, a second call within the 500 ms validity window
returns the identical height and performs no new ray probe; a missed
probe is not cached, so the no-reprobe part does not apply to it. -/
theorem C8_cache_idempotence (scene : Heightfield) (x z h now1 now2 : ℚ)
    (cache : HeightCache)
    (hprobe : (TerrainService.getGroundHeight scene x z true now1 cache).2.2 = true)
    (hhit : scene x z = some h)
    (hwin : now2 - now1 < TerrainService.CACHE_DURATION) :
    (TerrainService.getGroundHeight scene x z true now1 cache).1 = some h ∧
    (TerrainService.getGroundHeight scene x z true now2
        (TerrainService.getGroundHeight scene x z true now1 cache).2.1).1 = some h ∧
    (TerrainService.getGroundHeight scene x z true now2
        (TerrainService.getGroundHeight scene x z true now1 cache).2.1).2.2 = false := by
  have hfirst : TerrainService.getGroundHeight scene x z true now1 cache =
      (some h, TerrainService.cacheSet (TerrainService.getCacheKey x z) (h, now1) cache,
        true) := by
    unfold TerrainService.getGroundHeight at hprobe ⊢
    rcases hc : TerrainService.cacheGet (TerrainService.getCacheKey x z) cache
      with _ | ⟨hcached, ts⟩
    · simp only [hc, if_true] at hprobe ⊢
      rw [hhit]
    · simp only [hc, if_true] at hprobe ⊢
      by_cases hts : now1 - ts < TerrainService.CACHE_DURATION
      · rw [if_pos hts] at hprobe
        simp at hprobe
      · rw [if_neg hts] at hprobe ⊢
        rw [hhit]
  rw [hfirst]
  have hsecond : TerrainService.getGroundHeight scene x z true now2
      (TerrainService.cacheSet (TerrainService.getCacheKey x z) (h, now1) cache) =
        (some h, TerrainService.cacheSet (TerrainService.getCacheKey x z) (h, now1) cache,
          false) := by
    unfold TerrainService.getGroundHeight
    simp only [if_true, cacheGet_cacheSet]
    rw [if_pos hwin]
  rw [hsecond]
  exact ⟨rfl, rfl, rfl⟩

/-- Witness for the amended C8 on a flat heightfield of height 2:
probe at time 0, cache hit at time 100. -/
theorem C8_cache_idempotence_witness :
    (TerrainService.getGroundHeight (fun _ _ => some 2) 0 0 true 0 []).1 = some 2 ∧
    (TerrainService.getGroundHeight (fun _ _ => some 2) 0 0 true 100
        (TerrainService.getGroundHeight (fun _ _ => some 2) 0 0 true 0 []).2.1).1 = some 2 ∧
    (TerrainService.getGroundHeight (fun _ _ => some 2) 0 0 true 100
        (TerrainService.getGroundHeight (fun _ _ => some 2) 0 0 true 0 []).2.1).2.2 = false :=
  C8_cache_idempotence (fun _ _ => some 2) 0 0 2 0 100 [] rfl rfl
    (by norm_num [TerrainService.CACHE_DURATION])

/-- Claim C3: buildNavigationGrid reads the undefined colliders property
off any CollisionManager, so it returns early with only the initialized
flag set — no obstacle circle and no boundary cell is ever blocked — and
on a freshly constructed service every in-grid position then reports
walkable. -/
theorem C3_navigation_grid_never_blocked (cm : CollisionManagerState)
    (svc : PathfindingServiceState) (w c x z : ℚ)
    (hwalk : Pathfinder.inGrid (PathfindingService.new w c).pathfinder
        (Pathfinder.cellOf (PathfindingService.new w c).pathfinder x z) = true) :
    PathfindingService.buildNavigationGrid cm svc = { svc with isInitialized := true } ∧
    Pathfinder.isWalkable
      (PathfindingService.buildNavigationGrid cm (PathfindingService.new w c)).pathfinder
      x z = true := by
  refine ⟨rfl, ?_⟩
  have hps : (PathfindingService.buildNavigationGrid cm
      (PathfindingService.new w c)).pathfinder = (PathfindingService.new w c).pathfinder := rfl
  rw [hps]
  simp only [Pathfinder.isWalkable]
  rw [hwalk]
  simp [PathfindingService.new, Pathfinder.new]

/-- Witness for C3: on the default 100-by-1 grid, building from a
manager with an empty registry leaves the world origin walkable. -/
theorem C3_navigation_grid_never_blocked_witness :
    PathfindingService.buildNavigationGrid { entries := [] } (PathfindingService.new 100 1) =
      { PathfindingService.new 100 1 with isInitialized := true } ∧
    Pathfinder.isWalkable
      (PathfindingService.buildNavigationGrid { entries := [] }
        (PathfindingService.new 100 1)).pathfinder 0 0 = true :=
  C3_navigation_grid_never_blocked { entries := [] } (PathfindingService.new 100 1) 100 1 0 0
    (by norm_num [Pathfinder.inGrid, Pathfinder.cellOf, PathfindingService.new, Pathfinder.new])
